/-
  Verification of the SmartGSE data-validation and calculation core.

  Shallow embedding of the Python sources:
    - smartgse/core/models.py        (domain model)
    - smartgse/utils/calculations.py (calculator / analyzer)
    - smartgse/data/processors.py    (importer / validator)

  Conventions of the embedding:
    - Python floats are embedded as rationals (ℚ); float arithmetic on the
      decimal literals appearing in the claims is exact, and the code never
      relies on float-specific behaviour other than ZeroDivisionError, which
      is modelled explicitly via Except.
    - Python dates are embedded as integers (ordinal days); only comparison
      is ever performed on them.
    - Python dicts used purely for value sums (exemptions/credits/penalties)
      are embedded as association lists.
    - `print` diagnostics emitted during import are modelled as an explicit
      trace list, separate from the function's return value.
-/
import Mathlib

set_option maxHeartbeats 1000000

/-! ## Python builtins needed by the embedding -/

/-- Python `round(x)` (banker's rounding, ties to even) on an exact rational. -/
def pyRoundInt (x : ℚ) : ℤ :=
  if Int.fract x = 1/2 then
    (if ⌊x⌋ % 2 = 0 then ⌊x⌋ else ⌊x⌋ + 1)
  else round x

/-- Python `round(x, ndigits)` for `ndigits = 1`. -/
def pyRound1 (x : ℚ) : ℚ := (pyRoundInt (x * 10) : ℚ) / 10

/-- Python `round(x, ndigits)` for `ndigits = 2`. -/
def pyRound2 (x : ℚ) : ℚ := (pyRoundInt (x * 100) : ℚ) / 100

/-- `listPrefixEq n h` is true when `n` is a prefix of `h` (over characters). -/
def listPrefixEq : List Char → List Char → Bool
  | [], _ => true
  | _ :: _, [] => false
  | a :: as, b :: bs => a = b && listPrefixEq as bs

/-- `listContainsSub h n`: the character list `n` occurs contiguously in `h`
(Python `n in h` on strings). -/
def listContainsSub (h n : List Char) : Bool :=
  match h with
  | [] => listPrefixEq n []
  | _ :: t => listPrefixEq n h || listContainsSub t n

/-- Python substring test `needle in hay`. -/
def strIn (needle hay : String) : Bool := listContainsSub hay.toList needle.toList

/-! ## core/models.py — enumerations -/

/-- `EmissionScope` — greenhouse gas emission scopes (GHG Protocol). -/
inductive EmissionScope
  | scope_1
  | scope_2
  | scope_3
  deriving DecidableEq, Repr

/-- Python string value of an `EmissionScope` member. -/
def EmissionScope.value : EmissionScope → String
  | .scope_1 => "scope_1"
  | .scope_2 => "scope_2"
  | .scope_3 => "scope_3"

/-- Declaration order of `EmissionScope` members. -/
def emissionScopeMembers : List EmissionScope := [.scope_1, .scope_2, .scope_3]

/-- `EmissionSource` — common sources of greenhouse gas emissions. -/
inductive EmissionSource
  | fuel_combustion
  | electricity
  | heating
  | transportation
  | waste
  | water
  | refrigerants
  | business_travel
  | employee_commuting
  | supply_chain
  | other
  deriving DecidableEq, Repr

/-- Python string value of an `EmissionSource` member. -/
def EmissionSource.value : EmissionSource → String
  | .fuel_combustion => "fuel_combustion"
  | .electricity => "electricity"
  | .heating => "heating"
  | .transportation => "transportation"
  | .waste => "waste"
  | .water => "water"
  | .refrigerants => "refrigerants"
  | .business_travel => "business_travel"
  | .employee_commuting => "employee_commuting"
  | .supply_chain => "supply_chain"
  | .other => "other"

/-- Declaration order of `EmissionSource` members. -/
def emissionSourceMembers : List EmissionSource :=
  [.fuel_combustion, .electricity, .heating, .transportation, .waste, .water,
   .refrigerants, .business_travel, .employee_commuting, .supply_chain, .other]

/-- `SustainabilityCategory` — ESG categories. -/
inductive SustainabilityCategory
  | environmental
  | social
  | governance
  deriving DecidableEq, Repr

/-- Python string value of a `SustainabilityCategory` member. -/
def SustainabilityCategory.value : SustainabilityCategory → String
  | .environmental => "environmental"
  | .social => "social"
  | .governance => "governance"

/-- Declaration order of `SustainabilityCategory` members. -/
def sustainabilityCategoryMembers : List SustainabilityCategory :=
  [.environmental, .social, .governance]

/-! ## core/models.py — EmissionData -/

/-- `EmissionData` dataclass (already-constructed instance; the
construction-time invariants of `__post_init__` live in `EmissionData.mk?`).
`created_at` is the `datetime.now()` timestamp, irrelevant to every
computation in the core. -/
structure EmissionData where
  source : EmissionSource
  scope : EmissionScope
  co2_equivalent_tonnes : ℚ
  reporting_period_start : ℤ
  reporting_period_end : ℤ
  activity_data : ℚ
  activity_unit : String
  emission_factor : ℚ
  location : Option String := none
  facility : Option String := none
  department : Option String := none
  notes : Option String := none
  verified : Bool := false
  created_at : ℤ := 0
  deriving DecidableEq, Repr

/-- `EmissionData.__post_init__`: dataclass construction runs the validation
checks in order and raises `ValueError` on the first failure. -/
def EmissionData.mk? (source : EmissionSource) (scope : EmissionScope)
    (co2_equivalent_tonnes : ℚ) (reporting_period_start reporting_period_end : ℤ)
    (activity_data : ℚ) (activity_unit : String) (emission_factor : ℚ)
    (location facility department notes : Option String) (verified : Bool)
    (created_at : ℤ) : Except String EmissionData :=
  if reporting_period_start > reporting_period_end then
    .error "Start date must be before end date"
  else if co2_equivalent_tonnes < 0 then
    .error "CO2 equivalent must be non-negative"
  else if activity_data < 0 then
    .error "Activity data must be non-negative"
  else
    .ok { source := source, scope := scope,
          co2_equivalent_tonnes := co2_equivalent_tonnes,
          reporting_period_start := reporting_period_start,
          reporting_period_end := reporting_period_end,
          activity_data := activity_data, activity_unit := activity_unit,
          emission_factor := emission_factor, location := location,
          facility := facility, department := department, notes := notes,
          verified := verified, created_at := created_at }

/-! ## core/models.py — SustainabilityMetrics -/

/-- `metric_value : Union[float, int, str]` as a tagged variant. -/
inductive MetricValue
  | num (q : ℚ)
  | text (s : String)
  deriving DecidableEq, Repr

/-- `SustainabilityMetrics` dataclass. -/
structure SustainabilityMetrics where
  category : SustainabilityCategory
  metric_name : String
  metric_value : MetricValue
  metric_unit : String
  reporting_period_start : ℤ
  reporting_period_end : ℤ
  target_value : Option ℚ := none
  benchmark_value : Option ℚ := none
  description : Option String := none
  data_source : Option String := none
  calculation_method : Option String := none
  verified : Bool := false
  created_at : ℤ := 0
  deriving DecidableEq, Repr

/-- `SustainabilityMetrics.progress_to_target`: `None` when the target is
absent or the value is not numeric; division by a zero target raises
`ZeroDivisionError`, caught and turned into `None`. -/
def SustainabilityMetrics.progress_to_target (m : SustainabilityMetrics) : Option ℚ :=
  match m.target_value, m.metric_value with
  | none, _ => none
  | some _, .text _ => none
  | some t, .num v => if t = 0 then none else some (v / t * 100)

/-! ## core/models.py — CarbonTaxData -/

/-- `CarbonTaxData` dataclass.  The three adjustment dicts are embedded as
association lists (only their value sums are ever read). -/
structure CarbonTaxData where
  jurisdiction : String
  tax_rate_per_tonne : ℚ
  currency : String
  emissions_covered : List EmissionData
  reporting_period_start : ℤ
  reporting_period_end : ℤ
  exemptions : List (String × ℚ) := []
  credits : List (String × ℚ) := []
  penalties : List (String × ℚ) := []
  created_at : ℤ := 0

/-- `CarbonTaxData.total_emissions_tonnes` (computed on read). -/
def CarbonTaxData.total_emissions_tonnes (c : CarbonTaxData) : ℚ :=
  (c.emissions_covered.map (fun e => e.co2_equivalent_tonnes)).sum

/-- `CarbonTaxData.gross_tax_liability` (computed on read). -/
def CarbonTaxData.gross_tax_liability (c : CarbonTaxData) : ℚ :=
  c.total_emissions_tonnes * c.tax_rate_per_tonne

/-- `CarbonTaxData.total_exemptions` (computed on read). -/
def CarbonTaxData.total_exemptions (c : CarbonTaxData) : ℚ :=
  (c.exemptions.map Prod.snd).sum

/-- `CarbonTaxData.total_credits` (computed on read). -/
def CarbonTaxData.total_credits (c : CarbonTaxData) : ℚ :=
  (c.credits.map Prod.snd).sum

/-- `CarbonTaxData.total_penalties` (computed on read). -/
def CarbonTaxData.total_penalties (c : CarbonTaxData) : ℚ :=
  (c.penalties.map Prod.snd).sum

/-- `CarbonTaxData.net_tax_liability` (computed on read). -/
def CarbonTaxData.net_tax_liability (c : CarbonTaxData) : ℚ :=
  c.gross_tax_liability - c.total_exemptions - c.total_credits + c.total_penalties

/-! ## utils/calculations.py — EmissionCalculator -/

/-- One iteration of the accumulation loop in `calculate_scope_totals`:
`scope_totals[emission.scope.value] += emission.co2_equivalent_tonnes`. -/
def scopeTotalsStep (m : EmissionScope → ℚ) (emission : EmissionData) : EmissionScope → ℚ :=
  fun s => if s = emission.scope then m s + emission.co2_equivalent_tonnes else m s

/-- `EmissionCalculator.calculate_scope_totals`: the returned dict, as the map
from scope keys to accumulated values.  The dict is initialised with every
`EmissionScope` member at `0.0`. -/
def calculate_scope_totals (emissions : List EmissionData) : EmissionScope → ℚ :=
  emissions.foldl scopeTotalsStep (fun _ => 0)

/-- The entries of the dict returned by `calculate_scope_totals`, in key
insertion order (the three scope members in declaration order). -/
def scope_totals_entries (emissions : List EmissionData) : List (EmissionScope × ℚ) :=
  emissionScopeMembers.map (fun s => (s, calculate_scope_totals emissions s))

/-! ## utils/calculations.py — SustainabilityAnalyzer -/

/-- Python truthiness of an optional string (`None` and `""` are falsy). -/
def optStrTruthy : Option String → Bool
  | none => false
  | some s => decide (s ≠ "")

/-- `progress_values` of a category in `calculate_category_performance`:
the defined `progress_to_target` values, in order. -/
def progressValues (category_metrics : List SustainabilityMetrics) : List ℚ :=
  category_metrics.filterMap (fun m => m.progress_to_target)

/-- The `average_progress` entry stored by `calculate_category_performance`:
`np.mean(progress_values)` when the list is non-empty, then
`round(avg_progress, 2) if avg_progress else None` — so both an empty list
and a raw mean of exactly `0.0` (falsy) store `None`. -/
def averageProgress (category_metrics : List SustainabilityMetrics) : Option ℚ :=
  let ps := progressValues category_metrics
  if ps.isEmpty then none
  else
    let avg := ps.sum / (ps.length : ℚ)
    if avg = 0 then none else some (pyRound2 avg)

/-- `metrics_count` of a category in `calculate_category_performance`. -/
def categoryMetricsCount (metrics : List SustainabilityMetrics)
    (category : SustainabilityCategory) : ℕ :=
  (metrics.filter (fun m => m.category = category)).length

/-- Issue entries of `identify_performance_gaps`; each constructor stands for
the literal message appended in the Python code ("No target value set",
"Low progress to target: {p}%", "Data not verified", "Missing description"). -/
inductive GapIssue
  | noTargetValueSet
  | lowProgressToTarget (p : ℚ)
  | dataNotVerified
  | missingDescription
  deriving DecidableEq, Repr

/-- One `gap_info` entry of `identify_performance_gaps`. -/
structure GapInfo where
  metric_name : String
  category : SustainabilityCategory
  issues : List GapIssue
  deriving DecidableEq, Repr

/-- The `issues` list collected for one metric, in the code's check order. -/
def gapIssuesOf (m : SustainabilityMetrics) : List GapIssue :=
  (if m.target_value = none then [GapIssue.noTargetValueSet] else []) ++
  (match m.progress_to_target with
   | some p => if p < 50 then [GapIssue.lowProgressToTarget p] else []
   | none => []) ++
  (if m.verified then [] else [GapIssue.dataNotVerified]) ++
  (if optStrTruthy m.description then [] else [GapIssue.missingDescription])

/-- `SustainabilityAnalyzer.identify_performance_gaps`: metrics with a
non-empty issue list, in input order. -/
def identify_performance_gaps (metrics : List SustainabilityMetrics) : List GapInfo :=
  metrics.filterMap (fun m =>
    let issues := gapIssuesOf m
    if issues.isEmpty then none
    else some { metric_name := m.metric_name, category := m.category, issues := issues })

/-- One iteration of the per-metric loop in `calculate_esg_score`:
accumulates `(total_weight, weighted_score)`. -/
def esgLoopStep (acc : ℚ × ℚ) (metric : SustainabilityMetrics) : ℚ × ℚ :=
  let weight : ℚ := if metric.verified then 1 else 1/2
  let score : ℚ := match metric.progress_to_target with
    | some p => min p 100
    | none => 50
  (acc.1 + weight, acc.2 + score * weight)

/-- The per-category branch of `calculate_esg_score`: `0.0` for an empty
category, otherwise `round(weighted_score / total_weight if total_weight > 0
else 0, 1)`. -/
def esgCategoryScore (metrics : List SustainabilityMetrics)
    (category : SustainabilityCategory) : ℚ :=
  let category_metrics := metrics.filter (fun m => m.category = category)
  if category_metrics.isEmpty then 0
  else
    let acc := category_metrics.foldl esgLoopStep (0, 0)
    pyRound1 (if acc.1 > 0 then acc.2 / acc.1 else 0)

/-- The dict returned by `calculate_esg_score`. -/
structure ESGScores where
  environmental : ℚ
  social : ℚ
  governance : ℚ
  overall : ℚ
  deriving DecidableEq, Repr

/-- `SustainabilityAnalyzer.calculate_esg_score`: three category scores and
`overall = round(np.mean([env, social, gov]), 1)`. -/
def calculate_esg_score (metrics : List SustainabilityMetrics) : ESGScores :=
  let e := esgCategoryScore metrics .environmental
  let s := esgCategoryScore metrics .social
  let g := esgCategoryScore metrics .governance
  { environmental := e, social := s, governance := g,
    overall := pyRound1 ((e + s + g) / 3) }

/-- Python `min(dict, key=dict.get)` over an association list: the first entry
attaining the minimal value (a later entry replaces only on strictly smaller). -/
def pyMinByValue (xs : List (SustainabilityCategory × ℕ)) :
    Option (SustainabilityCategory × ℕ) :=
  xs.foldl (fun acc x => match acc with
    | none => some x
    | some b => if x.2 < b.2 then some x else some b) none

/-- Python `max(dict, key=dict.get)` over an association list: the first entry
attaining the maximal value. -/
def pyMaxByValue (xs : List (SustainabilityCategory × ℕ)) :
    Option (SustainabilityCategory × ℕ) :=
  xs.foldl (fun acc x => match acc with
    | none => some x
    | some b => if x.2 > b.2 then some x else some b) none

/-- The recommendation strings appended by `generate_recommendations`; each
constructor stands for the literal formatted message. -/
inductive Recommendation
  | setTargets (n : ℕ)                                  -- "Set targets for {n} metrics ..."
  | implementVerification (n : ℕ)                       -- "Implement verification processes for {n} metrics"
  | balanceCoverage (min_category : SustainabilityCategory) -- "Consider adding more {min_category} metrics ..."
  | focusImprove (category : SustainabilityCategory) (average_progress : ℚ)
      -- "Focus on improving {category} performance - currently at {avg}% of targets"
  deriving DecidableEq, Repr

/-- The "Set targets for ... metrics" block of `generate_recommendations`. -/
def targetRecs (metrics : List SustainabilityMetrics) : List Recommendation :=
  let gaps := identify_performance_gaps metrics
  let metrics_without_targets :=
    (gaps.filter (fun g => g.issues.contains GapIssue.noTargetValueSet)).length
  if metrics_without_targets > 0 then [Recommendation.setTargets metrics_without_targets]
  else []

/-- The "Implement verification processes" block of `generate_recommendations`. -/
def verificationRecs (metrics : List SustainabilityMetrics) : List Recommendation :=
  let gaps := identify_performance_gaps metrics
  let unverified_metrics :=
    (gaps.filter (fun g => g.issues.contains GapIssue.dataNotVerified)).length
  if unverified_metrics > 0 then [Recommendation.implementVerification unverified_metrics]
  else []

/-- The per-category counts of `calculate_category_performance`, in dict
insertion order. -/
def categoryCounts (metrics : List SustainabilityMetrics) :
    List (SustainabilityCategory × ℕ) :=
  sustainabilityCategoryMembers.map (fun c => (c, categoryMetricsCount metrics c))

/-- The category-balance block of `generate_recommendations`:
`if category_counts[max_category] > category_counts[min_category] * 2`. -/
def balanceRecs (metrics : List SustainabilityMetrics) : List Recommendation :=
  let counts := categoryCounts metrics
  let minEntry := (pyMinByValue counts).getD (.environmental, 0)
  let maxEntry := (pyMaxByValue counts).getD (.environmental, 0)
  if maxEntry.2 > minEntry.2 * 2 then [Recommendation.balanceCoverage minEntry.1]
  else []

/-- The performance block of `generate_recommendations`: iterates the
category-performance dict in insertion order and tests
`if performance['average_progress'] and performance['average_progress'] < 70`
(a stored average of `None` — including a raw mean of exactly 0 — or a stored
value of exactly `0.0` is falsy and emits nothing). -/
def focusRecs (metrics : List SustainabilityMetrics) : List Recommendation :=
  sustainabilityCategoryMembers.filterMap (fun c =>
    match averageProgress (metrics.filter (fun m => m.category = c)) with
    | some a => if a ≠ 0 ∧ a < 70 then some (Recommendation.focusImprove c a) else none
    | none => none)

/-- `SustainabilityAnalyzer.generate_recommendations`: the four blocks in the
code's append order. -/
def generate_recommendations (metrics : List SustainabilityMetrics) : List Recommendation :=
  targetRecs metrics ++ verificationRecs metrics ++ balanceRecs metrics ++ focusRecs metrics

/-! ## data/processors.py — DataValidator.validate_emissions_data -/

/-- Error strings appended to `validation_results['errors']`; each constructor
stands for the literal message, `record` being the 1-based number printed in
"Record {i+1}: ...". -/
inductive EmissionErr
  | co2eMustBePositive (record : ℕ)      -- "Record {i+1}: CO2e must be positive"
  | activityMustBePositive (record : ℕ)  -- "Record {i+1}: Activity data must be positive"
  | factorMustBePositive (record : ℕ)    -- "Record {i+1}: Emission factor must be positive"
  | startBeforeEnd (record : ℕ)          -- "Record {i+1}: Start date must be before end date"
  | noEmissionData                       -- "No emission data provided"
  deriving DecidableEq, Repr

/-- Warning strings appended to `validation_results['warnings']`. -/
inductive EmissionWarn
  | inconsistentCo2e (record : ℕ)   -- "Record {i+1}: CO2e calculation may be inconsistent ..."
  | missingLocation (record : ℕ)    -- "Record {i+1}: Missing location information"
  | dataNotVerified (record : ℕ)    -- "Record {i+1}: Data not verified"
  deriving DecidableEq, Repr

/-- The `validation_results` dict of `validate_emissions_data`. -/
structure ValidationResults where
  total_records : ℕ
  valid_records : ℕ
  errors : List EmissionErr
  warnings : List EmissionWarn
  data_quality_score : ℚ
  deriving DecidableEq, Repr

/-- Exceptions the validator can raise (it catches none). -/
inductive PyError
  | zeroDivisionError
  deriving DecidableEq, Repr

/-- One iteration of the per-record loop of `validate_emissions_data`:
the collected `record_issues` and the warnings appended for record `i`
(0-based), or the uncaught `ZeroDivisionError` raised by
`abs(co2e - expected) / expected` when `expected_co2e` is zero. -/
def validateEmissionRecord (i : ℕ) (emission : EmissionData) :
    Except PyError (List EmissionErr × List EmissionWarn) :=
  let record_issues :=
    (if emission.co2_equivalent_tonnes ≤ 0 then [EmissionErr.co2eMustBePositive (i+1)] else []) ++
    (if emission.activity_data ≤ 0 then [EmissionErr.activityMustBePositive (i+1)] else []) ++
    (if emission.emission_factor ≤ 0 then [EmissionErr.factorMustBePositive (i+1)] else []) ++
    (if emission.reporting_period_start ≥ emission.reporting_period_end
     then [EmissionErr.startBeforeEnd (i+1)] else [])
  let expected_co2e := emission.activity_data * emission.emission_factor
  if expected_co2e = 0 then .error PyError.zeroDivisionError
  else
    let w1 := if |emission.co2_equivalent_tonnes - expected_co2e| / expected_co2e > 5/100
              then [EmissionWarn.inconsistentCo2e (i+1)] else []
    let w2 := if optStrTruthy emission.location then [] else [EmissionWarn.missingLocation (i+1)]
    let w3 := if emission.verified then [] else [EmissionWarn.dataNotVerified (i+1)]
    .ok (record_issues, w1 ++ w2 ++ w3)

/-- The record loop of `validate_emissions_data`: threads `valid_count` and the
accumulated error/warning lists; an uncaught exception aborts the whole call. -/
def validateEmissionsLoop :
    ℕ → List EmissionData → ℕ → List EmissionErr → List EmissionWarn →
    Except PyError (ℕ × List EmissionErr × List EmissionWarn)
  | _, [], valid, errs, warns => .ok (valid, errs, warns)
  | i, e :: rest, valid, errs, warns =>
    match validateEmissionRecord i e with
    | .error err => .error err
    | .ok (record_issues, ws) =>
      validateEmissionsLoop (i+1) rest
        (if record_issues.isEmpty then valid + 1 else valid)
        (errs ++ record_issues) (warns ++ ws)

/-- `DataValidator.validate_emissions_data`.  An empty batch returns early
with the "No emission data provided" error entry and score `0.0`; otherwise
`data_quality_score = (valid_count / len(emissions)) * 100`. -/
def validate_emissions_data (emissions : List EmissionData) :
    Except PyError ValidationResults :=
  if emissions.isEmpty then
    .ok { total_records := emissions.length, valid_records := 0,
          errors := [EmissionErr.noEmissionData], warnings := [],
          data_quality_score := 0 }
  else
    match validateEmissionsLoop 0 emissions 0 [] [] with
    | .error e => .error e
    | .ok (valid, errs, warns) =>
      .ok { total_records := emissions.length, valid_records := valid,
            errors := errs, warnings := warns,
            data_quality_score := (valid : ℚ) / (emissions.length : ℚ) * 100 }

/-! ## data/processors.py — DataImporter -/

/-- A raw cell of an already-parsed tabular row.  Representation convention:
a cell on which Python `float()` succeeds with a finite value is `num`, a
cell that `pd.to_datetime` parses is `date`, a missing value (pandas NaN,
for which `pd.isna` is true) is `na`, anything else is `text`. -/
inductive Cell
  | num (q : ℚ)
  | text (s : String)
  | date (d : ℤ)
  | na
  deriving DecidableEq, Repr

/-- Python `str(cell)`.  Numeric and date cells stringify to Lean's printed
form (the exact spelling never matters to a claim: enum mapping of such
strings fails either way); a NaN cell stringifies to "nan". -/
def cellStr : Cell → String
  | .num q => toString q
  | .text s => s
  | .date d => toString d
  | .na => "nan"

/-- Python `str.lower()`, character-wise (the header and enum tokens are
ASCII). -/
def pyLower (s : String) : String := String.mk (s.toList.map Char.toLower)

/-- Python `bool(cell)` (`0`/`0.0` and `""` are falsy; NaN is truthy). -/
def cellTruthy : Cell → Bool
  | .num q => decide (q ≠ 0)
  | .text s => decide (s ≠ "")
  | .date _ => true
  | .na => true

/-- Python `float(cell)`.  `text` cells are by convention non-numeric, so
`float` raises `ValueError`; `date` cells raise `TypeError`.  A `na` cell is
a float NaN on which Python `float` would succeed, producing a NaN-valued
record; ℚ has no NaN, so the embedding maps this case to an error — no claim
under verification involves a NaN cell in a float-coerced field. -/
def pyFloat : Cell → Except String ℚ
  | .num q => .ok q
  | .text _ => .error "ValueError: could not convert string to float"
  | .date _ => .error "TypeError: float() argument must be a string or a real number"
  | .na => .error "ValueError: NaN cell in a float field (see comment)"

/-- Python `pd.to_datetime(cell).date()`.  A numeric cell parses as a
timestamp near the epoch; the embedding maps it to its floor as the abstract
day index.  A NaN cell gives `NaT`, whose `.date()` raises. -/
def pyDate : Cell → Except String ℤ
  | .date d => .ok d
  | .num q => .ok ⌊q⌋
  | .text _ => .error "ValueError: could not parse date"
  | .na => .error "ValueError: NaTType does not support date"

/-- The source-enum mapping loop: first member (declaration order) with
`src.value in source_str or source_str in src.value`. -/
def mapEmissionSource (source_str : String) : Option EmissionSource :=
  emissionSourceMembers.find? (fun src =>
    strIn src.value source_str || strIn source_str src.value)

/-- The scope-enum mapping loop. -/
def mapEmissionScope (scope_str : String) : Option EmissionScope :=
  emissionScopeMembers.find? (fun scp =>
    strIn scp.value scope_str || strIn scope_str scp.value)

/-- The category-enum mapping loop of the metrics importers. -/
def mapSustainabilityCategory (category_str : String) : Option SustainabilityCategory :=
  sustainabilityCategoryMembers.find? (fun cat =>
    strIn cat.value category_str || strIn category_str cat.value)

/-- One row of an emissions dataframe: the raw cell under each canonical
field's resolved header (meaningful only when the dataframe resolved that
column at all). -/
structure EmissionRow where
  source : Cell := .na
  scope : Cell := .na
  co2e : Cell := .na
  activity_data : Cell := .na
  activity_unit : Cell := .na
  emission_factor : Cell := .na
  period_start : Cell := .na
  period_end : Cell := .na
  location : Cell := .na
  facility : Cell := .na
  department : Cell := .na
  notes : Cell := .na
  verified : Cell := .na
  deriving DecidableEq, Repr

/-- An emissions dataframe after header resolution: `has_x` records whether
some synonym header for canonical field `x` was found (`x in actual_columns`,
a dataframe-level fact shared by all rows), plus the rows. -/
structure EmissionsDF where
  has_source : Bool := true
  has_scope : Bool := true
  has_co2e : Bool := true
  has_activity_data : Bool := true
  has_activity_unit : Bool := true
  has_emission_factor : Bool := true
  has_period_start : Bool := true
  has_period_end : Bool := true
  has_location : Bool := false
  has_facility : Bool := false
  has_department : Bool := false
  has_notes : Bool := false
  has_verified : Bool := false
  rows : List EmissionRow
  deriving DecidableEq, Repr

/-- Outcome of the per-row `try` block of `_process_emissions_dataframe`. -/
inductive EmissionRowOutcome
  | ok (record : EmissionData)
  | skipMap (source_str scope_str : String)  -- "Could not map source ... or scope ..." (no row index)
  | skipError (msg : String)                 -- caught exception: "Could not process row {i}: {e}"
  deriving DecidableEq, Repr

/-- The body of the row loop of `_process_emissions_dataframe`, in the code's
statement/evaluation order (field accesses raise `KeyError` when the column
is unresolved; coercions raise; `EmissionData(...)` runs `__post_init__`). -/
def processEmissionRow (df : EmissionsDF) (row : EmissionRow) : EmissionRowOutcome :=
  if !df.has_source then .skipError "KeyError: source" else
  if !df.has_scope then .skipError "KeyError: scope" else
  let source_str := pyLower (cellStr row.source)
  let scope_str := pyLower (cellStr row.scope)
  match mapEmissionSource source_str, mapEmissionScope scope_str with
  | some source, some scope =>
    (if !df.has_period_start then .skipError "KeyError: reporting_period_start" else
     match pyDate row.period_start with
     | .error e => .skipError e
     | .ok start_date =>
       if !df.has_period_end then .skipError "KeyError: reporting_period_end" else
       match pyDate row.period_end with
       | .error e => .skipError e
       | .ok end_date =>
         if !df.has_co2e then .skipError "KeyError: co2_equivalent_tonnes" else
         match pyFloat row.co2e with
         | .error e => .skipError e
         | .ok co2e =>
           if !df.has_activity_data then .skipError "KeyError: activity_data" else
           match pyFloat row.activity_data with
           | .error e => .skipError e
           | .ok activity =>
             if !df.has_activity_unit then .skipError "KeyError: activity_unit" else
             if !df.has_emission_factor then .skipError "KeyError: emission_factor" else
             match pyFloat row.emission_factor with
             | .error e => .skipError e
             | .ok factor =>
               match EmissionData.mk? source scope co2e start_date end_date activity
                   (cellStr row.activity_unit) factor
                   (if df.has_location then some (cellStr row.location) else none)
                   (if df.has_facility then some (cellStr row.facility) else none)
                   (if df.has_department then some (cellStr row.department) else none)
                   (if df.has_notes then some (cellStr row.notes) else none)
                   (if df.has_verified then cellTruthy row.verified else false) 0 with
               | .error e => .skipError e
               | .ok emission => .ok emission)
  | _, _ => .skipMap source_str scope_str

/-- The diagnostics printed by the importer's row loops (the `print` trace). -/
inductive ImportDiag
  | couldNotMapSourceScope (source_str scope_str : String)
  | couldNotMapCategory (category_str : String)
  | couldNotProcessRow (index : ℕ) (msg : String)
  deriving DecidableEq, Repr

/-- One iteration of the row loop of `_process_emissions_dataframe`:
appends the record on success, otherwise appends the printed diagnostic to
the trace (the exception path carries the 0-based dataframe index). -/
def emissionsLoopStep (df : EmissionsDF) (acc : List EmissionData × List ImportDiag)
    (ir : ℕ × EmissionRow) : List EmissionData × List ImportDiag :=
  match processEmissionRow df ir.2 with
  | .ok e => (acc.1 ++ [e], acc.2)
  | .skipMap s c => (acc.1, acc.2 ++ [ImportDiag.couldNotMapSourceScope s c])
  | .skipError m => (acc.1, acc.2 ++ [ImportDiag.couldNotProcessRow ir.1 m])

/-- The full row loop of `_process_emissions_dataframe`: the returned record
list paired with the printed-warning trace. -/
def processEmissionsWithTrace (df : EmissionsDF) :
    List EmissionData × List ImportDiag :=
  df.rows.enum.foldl (emissionsLoopStep df) ([], [])

/-- `DataImporter._process_emissions_dataframe` — the Python function's
return value: the record list only (diagnostics are printed, not returned). -/
def _process_emissions_dataframe (df : EmissionsDF) : List EmissionData :=
  (processEmissionsWithTrace df).1

/-- The warnings printed by `_process_emissions_dataframe` (side channel). -/
def emissionsImportTrace (df : EmissionsDF) : List ImportDiag :=
  (processEmissionsWithTrace df).2

/-- One row of a metrics dataframe. -/
structure MetricRow where
  category : Cell := .na
  metric_name : Cell := .na
  metric_value : Cell := .na
  metric_unit : Cell := .na
  target_value : Cell := .na
  period_start : Cell := .na
  period_end : Cell := .na
  description : Cell := .na
  data_source : Cell := .na
  verified : Cell := .na
  deriving DecidableEq, Repr

/-- A metrics dataframe after header resolution. -/
structure MetricsDF where
  has_category : Bool := true
  has_metric_name : Bool := true
  has_metric_value : Bool := true
  has_metric_unit : Bool := true
  has_target_value : Bool := false
  has_period_start : Bool := true
  has_period_end : Bool := true
  has_description : Bool := false
  has_data_source : Bool := false
  has_verified : Bool := false
  rows : List MetricRow
  deriving DecidableEq, Repr

/-- Outcome of the per-row `try` block of `_process_metrics_dataframe`.
`skipSilent` is the `if pd.isna(metric_value): continue` path: no record is
built and nothing is printed. -/
inductive MetricRowOutcome
  | ok (metric : SustainabilityMetrics)
  | skipMapCategory (category_str : String)  -- "Could not map category ..." (no row index)
  | skipSilent
  | skipError (msg : String)                 -- caught exception, printed with the row index
  deriving DecidableEq, Repr

/-- The body of the row loop of `_process_metrics_dataframe`, in the code's
statement/evaluation order.  The value cell is fetched after the dates; a NaN
value (`pd.isna`) skips the row silently *before* the float-or-string
conversion; the target cell, when its column resolved and the cell is not
NaN, is coerced with `float(...)` whose exception is caught by the row's
`try` (printed skip). -/
def processMetricRow (df : MetricsDF) (row : MetricRow) : MetricRowOutcome :=
  if !df.has_category then .skipError "KeyError: category" else
  let category_str := pyLower (cellStr row.category)
  match mapSustainabilityCategory category_str with
  | none => .skipMapCategory category_str
  | some category =>
    if !df.has_period_start then .skipError "KeyError: reporting_period_start" else
    match pyDate row.period_start with
    | .error e => .skipError e
    | .ok start_date =>
      if !df.has_period_end then .skipError "KeyError: reporting_period_end" else
      match pyDate row.period_end with
      | .error e => .skipError e
      | .ok end_date =>
        if !df.has_metric_value then .skipError "KeyError: metric_value" else
        if row.metric_value = Cell.na then .skipSilent else
        let value : MetricValue := match row.metric_value with
          | .num q => .num q
          | c => .text (cellStr c)
        if !df.has_metric_name then .skipError "KeyError: metric_name" else
        if !df.has_metric_unit then .skipError "KeyError: metric_unit" else
        match (if df.has_target_value && !(row.target_value = Cell.na)
               then Except.map some (pyFloat row.target_value)
               else Except.ok none) with
        | .error e => .skipError e
        | .ok target =>
          .ok { category := category, metric_name := cellStr row.metric_name,
                metric_value := value, metric_unit := cellStr row.metric_unit,
                reporting_period_start := start_date,
                reporting_period_end := end_date,
                target_value := target,
                description := if df.has_description then some (cellStr row.description) else none,
                data_source := if df.has_data_source then some (cellStr row.data_source) else none,
                verified := if df.has_verified then cellTruthy row.verified else false }

/-- One iteration of the row loop of `_process_metrics_dataframe`: a silent
skip contributes neither a record nor a diagnostic. -/
def metricsLoopStep (df : MetricsDF) (acc : List SustainabilityMetrics × List ImportDiag)
    (ir : ℕ × MetricRow) : List SustainabilityMetrics × List ImportDiag :=
  match processMetricRow df ir.2 with
  | .ok m => (acc.1 ++ [m], acc.2)
  | .skipMapCategory c => (acc.1, acc.2 ++ [ImportDiag.couldNotMapCategory c])
  | .skipSilent => acc
  | .skipError m => (acc.1, acc.2 ++ [ImportDiag.couldNotProcessRow ir.1 m])

/-- The full row loop of `_process_metrics_dataframe`: the returned metric
list paired with the printed-warning trace. -/
def processMetricsWithTrace (df : MetricsDF) :
    List SustainabilityMetrics × List ImportDiag :=
  df.rows.enum.foldl (metricsLoopStep df) ([], [])

/-- `DataImporter._process_metrics_dataframe` — the Python function's return
value. -/
def _process_metrics_dataframe (df : MetricsDF) : List SustainabilityMetrics :=
  (processMetricsWithTrace df).1

/-- The warnings printed by `_process_metrics_dataframe` (side channel). -/
def metricsImportTrace (df : MetricsDF) : List ImportDiag :=
  (processMetricsWithTrace df).2

/-! ## Example data used by the concrete parts of the claims -/

/-- A 100-tonne emission record (construction-valid). -/
def taxEmission1 : EmissionData :=
  { source := .electricity, scope := .scope_2, co2_equivalent_tonnes := 100,
    reporting_period_start := 0, reporting_period_end := 365,
    activity_data := 1000, activity_unit := "kWh", emission_factor := 1/10 }

/-- A 50-tonne emission record (construction-valid). -/
def taxEmission2 : EmissionData :=
  { source := .fuel_combustion, scope := .scope_1, co2_equivalent_tonnes := 50,
    reporting_period_start := 0, reporting_period_end := 365,
    activity_data := 500, activity_unit := "liters", emission_factor := 1/10 }

/-- The carbon-tax scenario of the spec: 150 tonnes covered, rate 25,
exemptions `{a: 500}`, credits `{b: 300}`, penalties `{c: 100}`. -/
def taxExample : CarbonTaxData :=
  { jurisdiction := "EU", tax_rate_per_tonne := 25, currency := "EUR",
    emissions_covered := [taxEmission1, taxEmission2],
    reporting_period_start := 0, reporting_period_end := 365,
    exemptions := [("a", 500)], credits := [("b", 300)], penalties := [("c", 100)] }

/-- C1: For every CarbonTaxComputation, `total_emissions_tonnes` is the sum of
the covered records' co2e, `gross_liability = total × rate`, and
`net_liability = gross − Σ exemptions − Σ credits + Σ penalties`; for the
concrete scenario (150 t, rate 25, exemptions {a:500}, credits {b:300},
penalties {c:100}) the gross liability is 3750 and the net liability 3050. -/
theorem carbon_tax_derived_values :
    (∀ c : CarbonTaxData,
      c.total_emissions_tonnes =
        (c.emissions_covered.map (fun e => e.co2_equivalent_tonnes)).sum ∧
      c.gross_tax_liability = c.total_emissions_tonnes * c.tax_rate_per_tonne ∧
      c.net_tax_liability = c.gross_tax_liability - (c.exemptions.map Prod.snd).sum
        - (c.credits.map Prod.snd).sum + (c.penalties.map Prod.snd).sum) ∧
    taxExample.total_emissions_tonnes = 150 ∧
    taxExample.gross_tax_liability = 3750 ∧
    taxExample.net_tax_liability = 3050 := by
  refine ⟨fun c => ⟨rfl, rfl, rfl⟩, ?_, ?_, ?_⟩ <;>
    norm_num [CarbonTaxData.net_tax_liability, CarbonTaxData.gross_tax_liability,
      CarbonTaxData.total_emissions_tonnes, CarbonTaxData.total_exemptions,
      CarbonTaxData.total_credits, CarbonTaxData.total_penalties, taxExample,
      taxEmission1, taxEmission2]

/-- C4: `EmissionData` construction succeeds exactly when
`start ≤ end ∧ co2e ≥ 0 ∧ activity ≥ 0`, regardless of every other field
(`emission_factor` included). -/
theorem emission_construction_succeeds_iff (source : EmissionSource)
    (scope : EmissionScope) (co2e : ℚ) (ps pe : ℤ) (activity : ℚ) (au : String)
    (factor : ℚ) (location facility department notes : Option String)
    (verified : Bool) (created_at : ℤ) :
    (EmissionData.mk? source scope co2e ps pe activity au factor
      location facility department notes verified created_at).isOk = true ↔
    (ps ≤ pe ∧ 0 ≤ co2e ∧ 0 ≤ activity) := by
  unfold EmissionData.mk?
  split_ifs with h1 h2 h3
  · refine iff_of_false (by simp [Except.isOk, Except.toBool]) ?_
    rintro ⟨hle, -, -⟩
    omega
  · refine iff_of_false (by simp [Except.isOk, Except.toBool]) ?_
    rintro ⟨-, hco, -⟩
    exact absurd h2 (not_lt.mpr hco)
  · refine iff_of_false (by simp [Except.isOk, Except.toBool]) ?_
    rintro ⟨-, -, hact⟩
    exact absurd h3 (not_lt.mpr hact)
  · exact iff_of_true rfl ⟨by omega, le_of_not_lt h2, le_of_not_lt h3⟩

/-- The three scope cells of the `calculate_scope_totals` dict sum to the
initial cells plus the batch total, for any starting dict. -/
theorem scopeTotals_fold_sum (emissions : List EmissionData) :
    ∀ m : EmissionScope → ℚ,
      (emissions.foldl scopeTotalsStep m) EmissionScope.scope_1 +
      (emissions.foldl scopeTotalsStep m) EmissionScope.scope_2 +
      (emissions.foldl scopeTotalsStep m) EmissionScope.scope_3 =
      m EmissionScope.scope_1 + m EmissionScope.scope_2 + m EmissionScope.scope_3 +
        (emissions.map (fun e => e.co2_equivalent_tonnes)).sum := by
  induction emissions with
  | nil => intro m; simp
  | cons e rest ih =>
    intro m
    simp only [List.foldl_cons, List.map_cons, List.sum_cons]
    rw [ih]
    cases h : e.scope <;> simp [scopeTotalsStep, h] <;> ring

/-- C5: `calculate_scope_totals` always returns exactly 3 entries (one per
scope member) whose values sum to the batch's total co2e, for any input
including the empty one. -/
theorem scope_totals_three_entries (emissions : List EmissionData) :
    (scope_totals_entries emissions).length = 3 ∧
    ((scope_totals_entries emissions).map Prod.snd).sum =
      (emissions.map (fun e => e.co2_equivalent_tonnes)).sum := by
  constructor
  · simp [scope_totals_entries, emissionScopeMembers]
  · have h := scopeTotals_fold_sum emissions (fun _ => 0)
    simp [scope_totals_entries, emissionScopeMembers, calculate_scope_totals]
    linarith [h]

/-- The metric of the spec's progress example: value 2.5, target 2.0. -/
def metricExample : SustainabilityMetrics :=
  { category := .environmental, metric_name := "Energy Intensity",
    metric_value := .num (5/2), metric_unit := "MWh/employee",
    reporting_period_start := 0, reporting_period_end := 365,
    target_value := some 2 }

/-- The metric with a non-numeric value "High". -/
def metricExampleText : SustainabilityMetrics :=
  { category := .social, metric_name := "Engagement",
    metric_value := .text "High", metric_unit := "level",
    reporting_period_start := 0, reporting_period_end := 365,
    target_value := some 2 }

/-- The metric with no target. -/
def metricExampleNoTarget : SustainabilityMetrics :=
  { category := .governance, metric_name := "Board size",
    metric_value := .num (5/2), metric_unit := "people",
    reporting_period_start := 0, reporting_period_end := 365 }

/-- C7: `progress_to_target` is `(value/target)×100` when the value is
numeric and the target present and non-zero, and `None` (no error) when the
target is absent, the value is non-numeric, or the target is zero; in
particular value 2.5 with target 2.0 gives 125.0, while a text value or a
missing target gives `None`. -/
theorem progress_to_target_characterisation :
    (∀ (m : SustainabilityMetrics) (v t : ℚ), m.metric_value = .num v →
      m.target_value = some t → t ≠ 0 →
      m.progress_to_target = some (v / t * 100)) ∧
    (∀ m : SustainabilityMetrics, m.target_value = none →
      m.progress_to_target = none) ∧
    (∀ (m : SustainabilityMetrics) (s : String), m.metric_value = .text s →
      m.progress_to_target = none) ∧
    (∀ m : SustainabilityMetrics, m.target_value = some 0 →
      m.progress_to_target = none) ∧
    metricExample.progress_to_target = some 125 ∧
    metricExampleText.progress_to_target = none ∧
    metricExampleNoTarget.progress_to_target = none := by
  refine ⟨?_, ?_, ?_, ?_, ?_, ?_, ?_⟩
  · intro m v t hv ht hne
    simp [SustainabilityMetrics.progress_to_target, hv, ht, hne]
  · intro m ht
    simp [SustainabilityMetrics.progress_to_target, ht]
  · intro m s hv
    cases ht : m.target_value <;>
      simp [SustainabilityMetrics.progress_to_target, hv, ht]
  · intro m ht
    cases hv : m.metric_value <;>
      simp [SustainabilityMetrics.progress_to_target, hv, ht]
  · norm_num [SustainabilityMetrics.progress_to_target, metricExample]
  · norm_num [SustainabilityMetrics.progress_to_target, metricExampleText]
  · norm_num [SustainabilityMetrics.progress_to_target, metricExampleNoTarget]

/-- Witness for C7 at the concrete metric (value 2.5, target 2.0). -/
theorem progress_to_target_characterisation_witness :
    metricExample.progress_to_target = some ((5/2) / 2 * 100) :=
  progress_to_target_characterisation.1 metricExample (5/2) 2 rfl rfl (by norm_num)

/-- A construction-valid emission record with zero activity amount: the
product `activity_data * emission_factor` is zero, so the validator's
consistency check divides by zero. -/
def zeroActivityEmission : EmissionData :=
  { source := .electricity, scope := .scope_2, co2_equivalent_tonnes := 0,
    reporting_period_start := 0, reporting_period_end := 365,
    activity_data := 0, activity_unit := "kWh", emission_factor := 1/2 }

/-- C2: the claim says `validate_emissions_data` always returns a report and
never raises, including for records with zero activity amount or emission
factor.  The code divides `abs(co2e - expected)` by
`expected = activity_data * emission_factor` with no guard, so a
construction-valid record whose product is zero makes the whole call raise
`ZeroDivisionError` instead of returning a report. -/
theorem validate_zero_activity_raises :
    validate_emissions_data [zeroActivityEmission] =
      .error PyError.zeroDivisionError ∧
    EmissionData.mk? .electricity .scope_2 0 0 365 0 "kWh" (1/2)
      none none none none false 0 = .ok zeroActivityEmission := by
  constructor
  · norm_num [validate_emissions_data, validateEmissionsLoop,
      validateEmissionRecord, zeroActivityEmission]
  · norm_num [EmissionData.mk?, zeroActivityEmission]

/-- C8: whenever `validate_emissions_data` returns a report, the quality
score of a non-empty batch is `valid_records / total_records × 100`, and the
empty batch returns score `0.0` together with the explicit
"No emission data provided" error entry (no division-by-zero failure). -/
theorem quality_score_formula (emissions : List EmissionData)
    (r : ValidationResults) (h : validate_emissions_data emissions = .ok r) :
    (emissions ≠ [] → r.data_quality_score =
      (r.valid_records : ℚ) / (r.total_records : ℚ) * 100) ∧
    (emissions = [] → r.data_quality_score = 0 ∧
      EmissionErr.noEmissionData ∈ r.errors) := by
  unfold validate_emissions_data at h
  by_cases he : emissions.isEmpty
  · rw [if_pos he] at h
    injection h with h
    constructor
    · intro hne
      exact absurd (List.isEmpty_iff.mp he) hne
    · intro _
      rw [← h]
      exact ⟨rfl, List.mem_singleton.mpr rfl⟩
  · rw [if_neg he] at h
    constructor
    · intro _
      cases hl : validateEmissionsLoop 0 emissions 0 [] [] with
      | error e => rw [hl] at h; exact absurd h (by simp)
      | ok v =>
        rw [hl] at h
        injection h with h
        rw [← h]
    · intro hemp
      exact absurd (by simp [hemp] : emissions.isEmpty = true) he

/-- Witness for C8: a concrete one-record batch for which the validator
returns a report whose score satisfies the formula. -/
theorem quality_score_formula_witness :
    ({ total_records := 1, valid_records := 1, errors := [],
       warnings := [EmissionWarn.missingLocation 1, EmissionWarn.dataNotVerified 1],
       data_quality_score := (1 : ℚ) / (1 : ℚ) * 100 } :
        ValidationResults).data_quality_score =
      ((1 : ℕ) : ℚ) / ((1 : ℕ) : ℚ) * 100 :=
  (quality_score_formula [taxEmission1]
    { total_records := 1, valid_records := 1, errors := [],
      warnings := [EmissionWarn.missingLocation 1, EmissionWarn.dataNotVerified 1],
      data_quality_score := (1 : ℚ) / (1 : ℚ) * 100 }
    (by norm_num [validate_emissions_data, validateEmissionsLoop,
      validateEmissionRecord, taxEmission1, optStrTruthy])).1
    (by simp)

/-! ## C6 — ESG scoring -/

/-- Spec-side per-metric weight, as the claim words it: 1.0 if verified,
0.5 otherwise. -/
def esgMetricWeightSpec (m : SustainabilityMetrics) : ℚ :=
  if m.verified then 1 else 1/2

/-- Spec-side per-metric score, as the claim words it: `min(progress, 100)`
when the progress ratio is defined, else the neutral default 50. -/
def esgMetricScoreSpec (m : SustainabilityMetrics) : ℚ :=
  match m.progress_to_target with
  | some p => min p 100
  | none => 50

/-- Spec-side category score, exactly as the claim states it: the
weight-weighted sum of the metric scores divided by the total weight, or 0
for an empty category — with no rounding. -/
def esgCategoryScoreSpec (metrics : List SustainabilityMetrics)
    (category : SustainabilityCategory) : ℚ :=
  let ms := metrics.filter (fun m => m.category = category)
  if ms.isEmpty then 0
  else (ms.map (fun m => esgMetricScoreSpec m * esgMetricWeightSpec m)).sum /
       (ms.map esgMetricWeightSpec).sum

/-- The ESG accumulation loop computes the weight sum and the weighted score
sum. -/
theorem esgLoop_sums (ms : List SustainabilityMetrics) :
    ∀ acc : ℚ × ℚ, ms.foldl esgLoopStep acc =
      (acc.1 + (ms.map esgMetricWeightSpec).sum,
       acc.2 + (ms.map (fun m => esgMetricScoreSpec m * esgMetricWeightSpec m)).sum) := by
  induction ms with
  | nil => intro acc; simp
  | cons m rest ih =>
    intro acc
    simp only [List.foldl_cons, List.map_cons, List.sum_cons, ih,
      esgLoopStep, esgMetricWeightSpec, esgMetricScoreSpec]
    refine Prod.ext ?_ ?_ <;> simp <;> ring

/-- Every per-metric weight is positive. -/
theorem esgMetricWeightSpec_pos (m : SustainabilityMetrics) :
    0 < esgMetricWeightSpec m := by
  unfold esgMetricWeightSpec
  split_ifs <;> norm_num

/-- The weight sum of a non-empty metric list is positive. -/
theorem esg_weight_sum_pos (ms : List SustainabilityMetrics) (h : ms ≠ []) :
    0 < (ms.map esgMetricWeightSpec).sum := by
  cases ms with
  | nil => exact absurd rfl h
  | cons m rest =>
    simp only [List.map_cons, List.sum_cons]
    have h1 := esgMetricWeightSpec_pos m
    have h2 : 0 ≤ (rest.map esgMetricWeightSpec).sum := by
      apply List.sum_nonneg
      intro x hx
      rcases List.mem_map.mp hx with ⟨y, -, rfl⟩
      exact le_of_lt (esgMetricWeightSpec_pos y)
    linarith

/-- The code's per-category score is the rounded spec formula. -/
theorem esgCategoryScore_eq_round_spec (metrics : List SustainabilityMetrics)
    (category : SustainabilityCategory) :
    esgCategoryScore metrics category =
      pyRound1 (esgCategoryScoreSpec metrics category) := by
  unfold esgCategoryScore esgCategoryScoreSpec
  by_cases he : (metrics.filter (fun m => m.category = category)).isEmpty
  · rw [if_pos he, if_pos he]
    norm_num [pyRound1, pyRoundInt, Int.fract, round_eq]
  · rw [if_neg he, if_neg he]
    rw [esgLoop_sums]
    have hp : 0 < ((metrics.filter (fun m => m.category = category)).map
        esgMetricWeightSpec).sum :=
      esg_weight_sum_pos _ (by simpa [List.isEmpty_iff] using he)
    simp only [zero_add]
    rw [if_pos hp]

/-- Two environmental metrics whose weighted average is 250/3, which is not
representable at one decimal place. -/
def esgExampleMetrics : List SustainabilityMetrics :=
  [ { category := .environmental, metric_name := "a", metric_value := .num 1,
      metric_unit := "u", reporting_period_start := 0, reporting_period_end := 365,
      target_value := some 1, verified := true },
    { category := .environmental, metric_name := "b", metric_value := .num 1,
      metric_unit := "u", reporting_period_start := 0, reporting_period_end := 365 } ]

/-- C6 counterexample: the claim says the category score *equals* the
weighted quotient; the code stores `round(..., 1)`, so for a verified
metric at 100% plus an unverified metric with no target the code's
environmental score is 83.3 while the claimed quotient is 250/3 = 83.33… -/
theorem esg_score_not_exact_quotient :
    (calculate_esg_score esgExampleMetrics).environmental = 833/10 ∧
    esgCategoryScoreSpec esgExampleMetrics .environmental = 250/3 ∧
    (calculate_esg_score esgExampleMetrics).environmental ≠
      esgCategoryScoreSpec esgExampleMetrics .environmental := by
  have hspec : esgCategoryScoreSpec esgExampleMetrics .environmental = 250/3 := by
    norm_num [esgCategoryScoreSpec, esgExampleMetrics, esgMetricScoreSpec,
      esgMetricWeightSpec, SustainabilityMetrics.progress_to_target]
  have hcode : (calculate_esg_score esgExampleMetrics).environmental = 833/10 := by
    have h := esgCategoryScore_eq_round_spec esgExampleMetrics .environmental
    rw [show (calculate_esg_score esgExampleMetrics).environmental =
      esgCategoryScore esgExampleMetrics .environmental from rfl, h, hspec]
    norm_num [pyRound1, pyRoundInt, Int.fract, round_eq]
  refine ⟨hcode, hspec, ?_⟩
  rw [hcode, hspec]
  norm_num

/-- C6 amended: each category score of `calculate_esg_score` is the claim's
weighted quotient *rounded to one decimal place* (empty categories score 0),
and the overall score is the mean of the three (rounded) category scores,
itself rounded to one decimal place. -/
theorem esg_score_rounded_formula (metrics : List SustainabilityMetrics) :
    (calculate_esg_score metrics).environmental =
      pyRound1 (esgCategoryScoreSpec metrics .environmental) ∧
    (calculate_esg_score metrics).social =
      pyRound1 (esgCategoryScoreSpec metrics .social) ∧
    (calculate_esg_score metrics).governance =
      pyRound1 (esgCategoryScoreSpec metrics .governance) ∧
    (calculate_esg_score metrics).overall =
      pyRound1 (((calculate_esg_score metrics).environmental +
        (calculate_esg_score metrics).social +
        (calculate_esg_score metrics).governance) / 3) :=
  ⟨esgCategoryScore_eq_round_spec metrics .environmental,
   esgCategoryScore_eq_round_spec metrics .social,
   esgCategoryScore_eq_round_spec metrics .governance,
   rfl⟩

/-! ## C9 — recommendations -/

/-- The target block only ever contains `setTargets` entries. -/
theorem mem_targetRecs_shape (metrics : List SustainabilityMetrics)
    (r : Recommendation) (hr : r ∈ targetRecs metrics) :
    ∃ n, r = Recommendation.setTargets n := by
  simp only [targetRecs] at hr
  split_ifs at hr <;> simp at hr
  exact ⟨_, hr⟩

/-- The verification block only ever contains `implementVerification`. -/
theorem mem_verificationRecs_shape (metrics : List SustainabilityMetrics)
    (r : Recommendation) (hr : r ∈ verificationRecs metrics) :
    ∃ n, r = Recommendation.implementVerification n := by
  simp only [verificationRecs] at hr
  split_ifs at hr <;> simp at hr
  exact ⟨_, hr⟩

/-- The balance block only ever contains `balanceCoverage`. -/
theorem mem_balanceRecs_shape (metrics : List SustainabilityMetrics)
    (r : Recommendation) (hr : r ∈ balanceRecs metrics) :
    ∃ c, r = Recommendation.balanceCoverage c := by
  simp only [balanceRecs] at hr
  split_ifs at hr <;> simp at hr
  exact ⟨_, hr⟩

/-- Membership in the performance block holds exactly for the categories
whose stored average progress is defined, non-zero and below 70. -/
theorem mem_focusRecs_iff (metrics : List SustainabilityMetrics)
    (cat : SustainabilityCategory) (a : ℚ) :
    Recommendation.focusImprove cat a ∈ focusRecs metrics ↔
      (averageProgress (metrics.filter (fun m => m.category = cat)) = some a ∧
        a ≠ 0 ∧ a < 70) := by
  unfold focusRecs
  rw [List.mem_filterMap]
  constructor
  · rintro ⟨c, -, hfc⟩
    split at hfc
    next b hb =>
      split_ifs at hfc with hcond
      injection hfc with hfc
      injection hfc with hc hb2
      subst hc
      subst hb2
      exact ⟨hb, hcond⟩
    next hb => exact absurd hfc (by simp)
  · rintro ⟨h, h0, h70⟩
    refine ⟨cat, ?_, ?_⟩
    · cases cat <;> simp [sustainabilityCategoryMembers]
    · show (match averageProgress (metrics.filter (fun m => m.category = cat)) with
        | some a => if a ≠ 0 ∧ a < 70 then some (Recommendation.focusImprove cat a)
                    else none
        | none => none) = some (Recommendation.focusImprove cat a)
      rw [h]
      exact if_pos ⟨h0, h70⟩

/-- First-wins `min(dict, key=dict.get)` over three entries attains the
mathematical minimum of the values. -/
theorem pyMinByValue_spec (p1 p2 p3 : SustainabilityCategory × ℕ) :
    ((pyMinByValue [p1, p2, p3]).getD (.environmental, 0)).2 =
      min p1.2 (min p2.2 p3.2) := by
  simp only [pyMinByValue, List.foldl_cons, List.foldl_nil]
  by_cases h1 : p2.2 < p1.2
  · rw [if_pos h1]
    dsimp only
    by_cases h2 : p3.2 < p2.2
    · rw [if_pos h2]; try dsimp only [Option.getD]
      omega
    · rw [if_neg h2]; try dsimp only [Option.getD]
      omega
  · rw [if_neg h1]
    dsimp only
    by_cases h2 : p3.2 < p1.2
    · rw [if_pos h2]; try dsimp only [Option.getD]
      omega
    · rw [if_neg h2]; try dsimp only [Option.getD]
      omega

/-- First-wins `max(dict, key=dict.get)` over three entries attains the
mathematical maximum of the values. -/
theorem pyMaxByValue_spec (p1 p2 p3 : SustainabilityCategory × ℕ) :
    ((pyMaxByValue [p1, p2, p3]).getD (.environmental, 0)).2 =
      max p1.2 (max p2.2 p3.2) := by
  simp only [pyMaxByValue, List.foldl_cons, List.foldl_nil]
  by_cases h1 : p2.2 > p1.2
  · rw [if_pos h1]
    dsimp only
    by_cases h2 : p3.2 > p2.2
    · rw [if_pos h2]; try dsimp only [Option.getD]
      omega
    · rw [if_neg h2]; try dsimp only [Option.getD]
      omega
  · rw [if_neg h1]
    dsimp only
    by_cases h2 : p3.2 > p1.2
    · rw [if_pos h2]; try dsimp only [Option.getD]
      omega
    · rw [if_neg h2]; try dsimp only [Option.getD]
      omega

/-- The balance block is non-empty exactly when the largest category count
exceeds twice the smallest. -/
theorem balanceRecs_nonempty_iff (metrics : List SustainabilityMetrics) :
    (∃ c, Recommendation.balanceCoverage c ∈ balanceRecs metrics) ↔
      max (categoryMetricsCount metrics .environmental)
        (max (categoryMetricsCount metrics .social)
          (categoryMetricsCount metrics .governance)) >
      2 * min (categoryMetricsCount metrics .environmental)
        (min (categoryMetricsCount metrics .social)
          (categoryMetricsCount metrics .governance)) := by
  have hcc : categoryCounts metrics =
      [(SustainabilityCategory.environmental,
          categoryMetricsCount metrics .environmental),
       (SustainabilityCategory.social, categoryMetricsCount metrics .social),
       (SustainabilityCategory.governance,
          categoryMetricsCount metrics .governance)] := rfl
  have hmin := pyMinByValue_spec
    (SustainabilityCategory.environmental, categoryMetricsCount metrics .environmental)
    (SustainabilityCategory.social, categoryMetricsCount metrics .social)
    (SustainabilityCategory.governance, categoryMetricsCount metrics .governance)
  have hmax := pyMaxByValue_spec
    (SustainabilityCategory.environmental, categoryMetricsCount metrics .environmental)
    (SustainabilityCategory.social, categoryMetricsCount metrics .social)
    (SustainabilityCategory.governance, categoryMetricsCount metrics .governance)
  simp only [balanceRecs, hcc]
  rw [hmin, hmax]
  split_ifs with h
  · refine iff_of_true ⟨_, List.mem_singleton.mpr rfl⟩ (by omega)
  · refine iff_of_false ?_ (by omega)
    rintro ⟨c, hc⟩
    simp at hc

/-- The performance block only ever contains `focusImprove` entries. -/
theorem mem_focusRecs_shape (metrics : List SustainabilityMetrics)
    (r : Recommendation) (hr : r ∈ focusRecs metrics) :
    ∃ c a, r = Recommendation.focusImprove c a := by
  unfold focusRecs at hr
  rcases List.mem_filterMap.mp hr with ⟨c, -, hfc⟩
  split at hfc
  next b hb =>
    split_ifs at hfc with hcond
    injection hfc with hfc
    exact ⟨c, b, hfc.symm⟩
  next hb => exact absurd hfc (by simp)

/-- C9 amended: the category-balance recommendation is emitted exactly when
the largest per-category metric count exceeds twice the smallest; the
per-category focus recommendation is emitted exactly when the category's
*stored* average progress is defined, non-zero and below 70 — the stored
average is `None` when the raw mean is exactly 0, and a stored value of 0 is
falsy, so a category whose average progress is exactly 0% emits nothing. -/
theorem recommendations_balance_and_focus (metrics : List SustainabilityMetrics) :
    ((∃ c, Recommendation.balanceCoverage c ∈ generate_recommendations metrics) ↔
      max (categoryMetricsCount metrics .environmental)
        (max (categoryMetricsCount metrics .social)
          (categoryMetricsCount metrics .governance)) >
      2 * min (categoryMetricsCount metrics .environmental)
        (min (categoryMetricsCount metrics .social)
          (categoryMetricsCount metrics .governance))) ∧
    (∀ cat : SustainabilityCategory,
      (∃ a, Recommendation.focusImprove cat a ∈ generate_recommendations metrics) ↔
      (∃ a, averageProgress (metrics.filter (fun m => m.category = cat)) = some a ∧
        a ≠ 0 ∧ a < 70)) := by
  constructor
  · rw [← balanceRecs_nonempty_iff metrics]
    simp only [generate_recommendations, List.mem_append]
    constructor
    · rintro ⟨c, ((htar | hver) | hbal) | hfoc⟩
      · rcases mem_targetRecs_shape _ _ htar with ⟨n, hn⟩
        exact absurd hn (by simp)
      · rcases mem_verificationRecs_shape _ _ hver with ⟨n, hn⟩
        exact absurd hn (by simp)
      · exact ⟨c, hbal⟩
      · rcases mem_focusRecs_shape _ _ hfoc with ⟨c2, a2, hn⟩
        exact absurd hn (by simp)
    · rintro ⟨c, hc⟩
      exact ⟨c, Or.inl (Or.inr hc)⟩
  · intro cat
    simp only [generate_recommendations, List.mem_append]
    constructor
    · rintro ⟨a, ((htar | hver) | hbal) | hfoc⟩
      · rcases mem_targetRecs_shape _ _ htar with ⟨n, hn⟩
        exact absurd hn (by simp)
      · rcases mem_verificationRecs_shape _ _ hver with ⟨n, hn⟩
        exact absurd hn (by simp)
      · rcases mem_balanceRecs_shape _ _ hbal with ⟨c, hn⟩
        exact absurd hn (by simp)
      · exact ⟨a, (mem_focusRecs_iff metrics cat a).mp hfoc⟩
    · rintro ⟨a, ha, h0, h70⟩
      exact ⟨a, Or.inr ((mem_focusRecs_iff metrics cat a).mpr ⟨ha, h0, h70⟩)⟩

/-- An environmental metric whose progress ratio is exactly 0% (value 0,
target 5), verified and described so no other gap fires. -/
def c9Metric : SustainabilityMetrics :=
  { category := .environmental, metric_name := "m", metric_value := .num 0,
    metric_unit := "u", reporting_period_start := 0, reporting_period_end := 365,
    target_value := some 5, verified := true, description := some "d" }

/-- C9 counterexample: for a batch whose environmental average progress is
exactly 0% (< 70%), the claim demands a "focus on improving environmental"
recommendation, but the code's truthiness test
`if performance['average_progress'] and ... < 70` treats the 0 average as
falsy: the output contains only the balance recommendation. -/
theorem zero_average_progress_emits_nothing :
    progressValues ([c9Metric].filter
      (fun m => m.category = SustainabilityCategory.environmental)) = [0] ∧
    generate_recommendations [c9Metric] =
      [Recommendation.balanceCoverage SustainabilityCategory.social] := by
  have hfil : [c9Metric].filter
      (fun m => m.category = SustainabilityCategory.environmental) = [c9Metric] := by
    simp [c9Metric]
  have hfils : [c9Metric].filter
      (fun m => m.category = SustainabilityCategory.social) = [] := by
    simp [c9Metric]
  have hfilg : [c9Metric].filter
      (fun m => m.category = SustainabilityCategory.governance) = [] := by
    simp [c9Metric]
  have h1 : SustainabilityMetrics.progress_to_target c9Metric = some 0 := by
    norm_num [SustainabilityMetrics.progress_to_target, c9Metric]
  have hpv : progressValues [c9Metric] = [0] := by
    simp [progressValues, h1]
  have hap : averageProgress [c9Metric] = none := by
    norm_num [averageProgress, hpv]
  have hapE : averageProgress [] = none := by
    simp [averageProgress, progressValues]
  have hgap : gapIssuesOf c9Metric = [GapIssue.lowProgressToTarget 0] := by
    norm_num [gapIssuesOf, h1, optStrTruthy,
      show c9Metric.target_value = some 5 from rfl,
      show c9Metric.verified = true from rfl,
      show c9Metric.description = some "d" from rfl]
    all_goals decide
  have hgaps : identify_performance_gaps [c9Metric] =
      [{ metric_name := "m", category := .environmental,
         issues := [GapIssue.lowProgressToTarget 0] }] := by
    simp [identify_performance_gaps, hgap,
      show c9Metric.metric_name = "m" from rfl,
      show c9Metric.category = SustainabilityCategory.environmental from rfl]
  constructor
  · rw [hfil, hpv]
  · have ht : targetRecs [c9Metric] = [] := by
      simp [targetRecs, hgaps]
    have hv : verificationRecs [c9Metric] = [] := by
      simp [verificationRecs, hgaps]
    have hb : balanceRecs [c9Metric] =
        [Recommendation.balanceCoverage .social] := by
      simp [balanceRecs, categoryCounts, sustainabilityCategoryMembers,
        categoryMetricsCount, hfil, hfils, hfilg, pyMinByValue, pyMaxByValue]
    have hf : focusRecs [c9Metric] = [] := by
      simp [focusRecs, sustainabilityCategoryMembers, hfil, hfils, hfilg, hap, hapE]
    simp only [generate_recommendations, ht, hv, hb, hf]
    rfl

/-! ## C3 / C10 — importer row loops -/

/-- The record produced for an emission row, when it produces one. -/
def emissionRowRecord (df : EmissionsDF) (ir : ℕ × EmissionRow) :
    Option EmissionData :=
  match processEmissionRow df ir.2 with
  | .ok e => some e
  | _ => none

/-- The printed diagnostic produced for an emission row, when it produces
one. -/
def emissionRowDiag (df : EmissionsDF) (ir : ℕ × EmissionRow) :
    Option ImportDiag :=
  match processEmissionRow df ir.2 with
  | .ok _ => none
  | .skipMap s c => some (ImportDiag.couldNotMapSourceScope s c)
  | .skipError m => some (ImportDiag.couldNotProcessRow ir.1 m)

/-- The emissions row loop, started from any accumulator, appends exactly the
per-row records and per-row diagnostics: rows are processed independently. -/
theorem emissionsLoop_characterisation (df : EmissionsDF)
    (l : List (ℕ × EmissionRow)) :
    ∀ acc : List EmissionData × List ImportDiag,
      l.foldl (emissionsLoopStep df) acc =
        (acc.1 ++ l.filterMap (emissionRowRecord df),
         acc.2 ++ l.filterMap (emissionRowDiag df)) := by
  induction l with
  | nil => intro acc; simp
  | cons x xs ih =>
    intro acc
    simp only [List.foldl_cons, List.filterMap_cons, ih]
    cases h : processEmissionRow df x.2 <;>
      simp [emissionsLoopStep, emissionRowRecord, emissionRowDiag, h]

/-- The metric produced for a metrics row, when it produces one (a NaN value
cell produces none). -/
def metricRowRecord (df : MetricsDF) (ir : ℕ × MetricRow) :
    Option SustainabilityMetrics :=
  match processMetricRow df ir.2 with
  | .ok m => some m
  | _ => none

/-- The printed diagnostic produced for a metrics row, when it produces one
(a NaN value cell produces none: the row is skipped silently). -/
def metricRowDiag (df : MetricsDF) (ir : ℕ × MetricRow) : Option ImportDiag :=
  match processMetricRow df ir.2 with
  | .ok _ => none
  | .skipMapCategory c => some (ImportDiag.couldNotMapCategory c)
  | .skipSilent => none
  | .skipError m => some (ImportDiag.couldNotProcessRow ir.1 m)

/-- The metrics row loop, started from any accumulator, appends exactly the
per-row metrics and per-row diagnostics. -/
theorem metricsLoop_characterisation (df : MetricsDF)
    (l : List (ℕ × MetricRow)) :
    ∀ acc : List SustainabilityMetrics × List ImportDiag,
      l.foldl (metricsLoopStep df) acc =
        (acc.1 ++ l.filterMap (metricRowRecord df),
         acc.2 ++ l.filterMap (metricRowDiag df)) := by
  induction l with
  | nil => intro acc; simp
  | cons x xs ih =>
    intro acc
    simp only [List.foldl_cons, List.filterMap_cons, ih]
    cases h : processMetricRow df x.2 <;>
      simp [metricsLoopStep, metricRowRecord, metricRowDiag, h]

/-- A well-formed emission row with the given co2e value: mappable source and
scope, parseable dates, numeric cells. -/
def c3Row (co2e : ℚ) : EmissionRow :=
  { source := .text "electricity", scope := .text "scope_2", co2e := .num co2e,
    activity_data := .num 1000, activity_unit := .text "kWh",
    emission_factor := .num (1/10), period_start := .date 0,
    period_end := .date 365 }

/-- The spec's scenario: 3 rows, the second (0-based index 1) has co2e = −5. -/
def c3DF : EmissionsDF := { rows := [c3Row 100, c3Row (-5), c3Row 50] }

/-- The record imported from a well-formed row with the given co2e. -/
def c3Record (co2e : ℚ) : EmissionData :=
  { source := .electricity, scope := .scope_2, co2_equivalent_tonnes := co2e,
    reporting_period_start := 0, reporting_period_end := 365,
    activity_data := 1000, activity_unit := "kWh", emission_factor := 1/10 }

/-- C3 counterexample: for the 3-row scenario the import's *returned output*
is exactly the two good records — it contains no diagnostic at all.  The
diagnostic for the bad row is printed (trace), and it references the 0-based
dataframe index 1 (the second row), not 2. -/
theorem import_diagnostics_not_returned :
    _process_emissions_dataframe c3DF = [c3Record 100, c3Record 50] ∧
    emissionsImportTrace c3DF =
      [ImportDiag.couldNotProcessRow 1 "CO2 equivalent must be non-negative"] ∧
    ImportDiag.couldNotProcessRow 2 "CO2 equivalent must be non-negative" ∉
      emissionsImportTrace c3DF := by
  refine ⟨rfl, rfl, ?_⟩
  rw [show emissionsImportTrace c3DF =
    [ImportDiag.couldNotProcessRow 1 "CO2 equivalent must be non-negative"]
    from rfl]
  simp

/-- C3 amended: rows are processed independently — the import's returned
output is exactly the list of per-row records of the good rows, and each
skipped row yields one printed diagnostic (carrying the row's 0-based index
when it was skipped by a caught exception); the diagnostics are a printed
side channel, not part of the returned output.  For the 3-row scenario with
co2e = −5 in the second row, the returned output has the 2 good records and
the trace is one diagnostic for row index 1. -/
theorem import_processes_rows_independently :
    (∀ df : EmissionsDF,
      _process_emissions_dataframe df =
        df.rows.enum.filterMap (emissionRowRecord df) ∧
      emissionsImportTrace df = df.rows.enum.filterMap (emissionRowDiag df)) ∧
    (_process_emissions_dataframe c3DF).length = 2 ∧
    emissionsImportTrace c3DF =
      [ImportDiag.couldNotProcessRow 1 "CO2 equivalent must be non-negative"] := by
  refine ⟨fun df => ⟨?_, ?_⟩, rfl, rfl⟩
  · unfold _process_emissions_dataframe processEmissionsWithTrace
    rw [emissionsLoop_characterisation df df.rows.enum ([], [])]
    simp
  · unfold emissionsImportTrace processEmissionsWithTrace
    rw [emissionsLoop_characterisation df df.rows.enum ([], [])]
    simp

/-- A metrics row whose value cell is NaN while every other field resolves
and parses. -/
def c10Row : MetricRow :=
  { category := .text "environmental", metric_name := .text "m",
    metric_value := .na, metric_unit := .text "u",
    period_start := .date 0, period_end := .date 365 }

/-- A one-row metrics dataframe holding `c10Row`. -/
def c10DF : MetricsDF := { rows := [c10Row] }

/-- C10: a metrics row whose resolved value cell is NaN is skipped entirely —
no metric and no diagnostic — even when the category maps and the dates
parse; and in general the loop's outputs are exactly the per-row results, a
silent skip contributing to neither. -/
theorem nan_value_row_skipped_silently :
    (∀ (df : MetricsDF) (row : MetricRow) (c : SustainabilityCategory)
        (sd ed : ℤ),
      df.has_category = true →
      mapSustainabilityCategory (pyLower (cellStr row.category)) = some c →
      df.has_period_start = true → pyDate row.period_start = .ok sd →
      df.has_period_end = true → pyDate row.period_end = .ok ed →
      df.has_metric_value = true → row.metric_value = Cell.na →
      processMetricRow df row = .skipSilent) ∧
    (∀ df : MetricsDF,
      _process_metrics_dataframe df =
        df.rows.enum.filterMap (metricRowRecord df) ∧
      metricsImportTrace df = df.rows.enum.filterMap (metricRowDiag df)) ∧
    processMetricsWithTrace c10DF = ([], []) := by
  refine ⟨?_, fun df => ⟨?_, ?_⟩, rfl⟩
  · intro df row c sd ed hc hmap hps hpsok hpe hpeok hmv hna
    simp only [processMetricRow, hc, hmap, hps, hpe, hmv, hna, hpsok, hpeok,
      Bool.not_true, Bool.false_eq_true, if_false]
    exact if_pos trivial
  · unfold _process_metrics_dataframe processMetricsWithTrace
    rw [metricsLoop_characterisation df df.rows.enum ([], [])]
    simp
  · unfold metricsImportTrace processMetricsWithTrace
    rw [metricsLoop_characterisation df df.rows.enum ([], [])]
    simp

/-- Witness for C10: the concrete NaN-valued row is skipped silently. -/
theorem nan_value_row_skipped_silently_witness :
    processMetricRow c10DF c10Row = .skipSilent :=
  nan_value_row_skipped_silently.1 c10DF c10Row .environmental 0 365
    rfl rfl rfl rfl rfl rfl rfl rfl
